import Mathlib

/-!
Shallow embedding of the `shared_utils` retry / rate-limit / LLM-factory core
(`shared_utils/retry/backoff.py`, `shared_utils/retry/errors.py`,
`shared_utils/http/client.py`, `shared_utils/llm/client.py`) together with
theorems checking the specification's claims about it.

Numeric conventions: Python floats are modelled as exact rationals (`ℚ`);
all delays and token counts in the source are small products/quotients, so
no float-rounding behaviour is load-bearing for the properties below.
-/

attribute [local semireducible] Rat.mul Rat.sub Rat.inv Rat.add

/-- Exceptions that can flow through the retry machinery, mirroring the
exception kinds the source distinguishes by `isinstance`:
`RetryableError` / `NonRetryableError` (retry/errors.py),
`httpx.HTTPStatusError` (carrying `response.status_code` and the
`Retry-After` header of its response), `requests.HTTPError` (whose
`response` may be `None`), connection and timeout failures, and any other
exception (only its message text matters to the classifier).
The `Retry-After` header is modelled as seen through Python `float()`:
`none` = header absent (or falsy empty string), `some none` = present but
unparsable (`float` raises `ValueError`), `some (some v)` = parses to `v`;
`float()` itself is a stdlib collaborator, so we embed its result. -/
inductive PyError where
  | retryableError (msg : String)
  | nonRetryableError (msg : String)
  | httpStatusError (status : Nat) (msg : String) (retryAfter : Option (Option ℚ))
  | requestsHTTPError (status : Option Nat) (msg : String)
  | connectError (msg : String)
  | timeoutException (msg : String)
  | otherError (msg : String)
deriving DecidableEq

/-- `RETRYABLE_STATUS_CODES` from backoff.py: 429, 500, 502, 503, 504. -/
def RETRYABLE_STATUS_CODES : List Nat := [429, 500, 502, 503, 504]

/-- `NON_RETRYABLE_STATUS_CODES` from backoff.py: 400, 401, 403, 404.
The source defines this set but `is_retryable_error` never reads it. -/
def NON_RETRYABLE_STATUS_CODES : List Nat := [400, 401, 403, 404]

/-- Leading-segment test on character lists (executable, kernel-reducible). -/
def charsHavePre : List Char → List Char → Bool
  | [], _ => true
  | _ :: _, [] => false
  | p :: ps, h :: hs => p == h && charsHavePre ps hs

/-- Substring test `pat in hay` for Python strings, on character lists. -/
def charsHaveSub (pat : List Char) : List Char → Bool
  | [] => pat.isEmpty
  | c :: rest => charsHavePre pat (c :: rest) || charsHaveSub pat rest

/-- ASCII lowercasing of one character, as Python `str.lower()` does for the
ASCII message fragments the classifier compares against. -/
def pyToLowerChar (c : Char) : Char :=
  if 'A' ≤ c ∧ c ≤ 'Z' then Char.ofNat (c.toNat + 32) else c

/-- ASCII uppercasing of one character (Python `str.upper()` on the ASCII
provider names). -/
def pyToUpperChar (c : Char) : Char :=
  if 'a' ≤ c ∧ c ≤ 'z' then Char.ofNat (c.toNat - 32) else c

/-- Python `s.lower()` on ASCII strings. -/
def pyLower (s : String) : String :=
  ⟨s.toList.map pyToLowerChar⟩

/-- Python `s.upper()` on ASCII strings. -/
def pyUpper (s : String) : String :=
  ⟨s.toList.map pyToUpperChar⟩

/-- Python `s.startswith(pre)`, on character lists. -/
def pyStartsWith (s pre : String) : Bool :=
  charsHavePre pre.toList s.toList

/-- The message-text fallback of `is_retryable_error`:
`any(phrase in str(error).lower() for phrase in ["rate limit", "too many requests", "429"])`. -/
def messageIndicatesRetry (msg : String) : Bool :=
  let error_str := msg.toList.map pyToLowerChar
  charsHaveSub "rate limit".toList error_str ||
  charsHaveSub "too many requests".toList error_str ||
  charsHaveSub "429".toList error_str

/-- Python `min(a, b)`: the first argument when it is ≤ the second. -/
def pymin (a b : ℚ) : ℚ :=
  if a ≤ b then a else b

/-- `is_retryable_error` (backoff.py lines 43-92), branch for branch:
tagged retryable → true; tagged non-retryable → false; an
`httpx.HTTPStatusError` returns membership of its status in
`RETRYABLE_STATUS_CODES` immediately; connect/timeout failures → true;
a `requests.HTTPError` with a response likewise returns status membership,
while one with `response is None` falls through to the message-text check,
as does any other exception; default false. -/
def is_retryable_error (error : PyError) : Bool :=
  match error with
  | .retryableError _ => true
  | .nonRetryableError _ => false
  | .httpStatusError status _ _ => RETRYABLE_STATUS_CODES.contains status
  | .connectError _ => true
  | .timeoutException _ => true
  | .requestsHTTPError (some status) _ => RETRYABLE_STATUS_CODES.contains status
  | .requestsHTTPError none msg => messageIndicatesRetry msg
  | .otherError msg => messageIndicatesRetry msg

/-- `delay = min(base_delay * (2 ** attempt), max_delay)` — the expression
computed identically at backoff.py lines 147 and 211 and client.py
lines 194 and 213. -/
def backoffDelay (base_delay max_delay : ℚ) (attempt : ℕ) : ℚ :=
  pymin (base_delay * 2 ^ attempt) max_delay

/-- `MaxRetriesExceeded` (retry/errors.py lines 36-46): message plus the
original error. -/
structure MaxRetriesExceeded where
  message : String
  original_error : Option PyError
deriving DecidableEq

/-- Outcome of a retry-wrapped run: the returned value or the raised
exception, each together with the list of sleep durations performed
(in order). `raisedMaxRetries` is the outcome "a `MaxRetriesExceeded`
exception was raised"; it exists so that the spec's claim about it can be
stated against the code. -/
inductive RunOutcome (α : Type) where
  | ok (value : α) (sleeps : List ℚ)
  | raised (e : PyError) (sleeps : List ℚ)
  | raisedMaxRetries (exc : MaxRetriesExceeded) (sleeps : List ℚ)
deriving DecidableEq

/-- The sleep-duration trace of an outcome. -/
def RunOutcome.sleeps {α : Type} : RunOutcome α → List ℚ
  | .ok _ s => s
  | .raised _ s => s
  | .raisedMaxRetries _ s => s

/-- Whether the outcome is a raised `MaxRetriesExceeded`. -/
def RunOutcome.isMaxRetriesSignal {α : Type} : RunOutcome α → Bool
  | .raisedMaxRetries _ _ => true
  | _ => false

/-- One loop of the `with_retry` / `with_retry_sync` wrapper body
(backoff.py lines 123-162 and 188-224 — the async and sync bodies are
textually identical up to `await`, so one embedding covers both).
`f attempt` is the outcome of calling the wrapped operation on the given
attempt (0-indexed); `rex` models the optional `retryable_exceptions`
tuple as a predicate; `fuel` counts remaining loop iterations of
`for attempt in range(max_retries + 1)`. Inside the loop: on success
return; on failure, `should_retry` is true when `retryable_exceptions`
matches, else the classifier decides; non-retryable → bare `raise`;
`attempt >= max_retries` → log and bare `raise`; otherwise sleep
`min(base_delay * 2 ** attempt, max_delay)` and continue. The fuel-0 arm
is the source's dead post-loop code (`raise last_error` /
`RuntimeError(...)`), unreachable from `with_retry_run`. -/
def with_retry_iter {α : Type} (max_retries : ℕ) (base_delay max_delay : ℚ)
    (rex : Option (PyError → Bool)) (f : ℕ → Except PyError α) :
    ℕ → ℕ → List ℚ → RunOutcome α
  | 0, _, sleeps =>
      .raised (.otherError "Retry loop completed without success or error") sleeps
  | fuel + 1, attempt, sleeps =>
      match f attempt with
      | .ok v => .ok v sleeps
      | .error e =>
          let should_retry :=
            match rex with
            | some tagged => if tagged e then true else is_retryable_error e
            | none => is_retryable_error e
          if should_retry = false then
            .raised e sleeps
          else if max_retries ≤ attempt then
            .raised e sleeps
          else
            with_retry_iter max_retries base_delay max_delay rex f fuel
              (attempt + 1) (sleeps ++ [backoffDelay base_delay max_delay attempt])

/-- The full `with_retry(max_retries, base_delay, max_delay, ...)`-wrapped
call: `max_retries + 1` loop iterations starting at attempt 0. -/
def with_retry_run {α : Type} (max_retries : ℕ) (base_delay max_delay : ℚ)
    (rex : Option (PyError → Bool)) (f : ℕ → Except PyError α) : RunOutcome α :=
  with_retry_iter max_retries base_delay max_delay rex f (max_retries + 1) 0 []

/-- The delay actually slept for one retried status failure in
`RetryingClient._request_with_retry` (client.py lines 194-202): the
exponential delay, overridden verbatim by the `Retry-After` header when
the header is truthy and `float()` parses it, with `ValueError` ignored. -/
def httpEffectiveDelay (base_delay max_delay : ℚ) (attempt : ℕ)
    (retryAfter : Option (Option ℚ)) : ℚ :=
  let delay := backoffDelay base_delay max_delay attempt
  match retryAfter with
  | some (some v) => v
  | some none => delay
  | none => delay

/-- One loop of `RetryingClient._request_with_retry` (client.py lines
177-220). On `httpx.HTTPStatusError`: a 4xx status other than 429 is
re-raised at once; otherwise, with attempts remaining, sleep the effective
delay and continue, and with none remaining the except block ends, the
`for` loop is exhausted, and `raise last_error` re-raises the same bare
error (directly modelled here as raising it). Connect/timeout failures
retry with the plain exponential delay. Any other exception type is not
caught and propagates immediately. The fuel-0 arm is unreachable from
`request_with_retry` (the loop always returns or raises by its last
iteration). -/
def request_retry_iter {α : Type} (max_retries : ℕ) (base_delay max_delay : ℚ)
    (f : ℕ → Except PyError α) : ℕ → ℕ → List ℚ → RunOutcome α
  | 0, _, sleeps =>
      .raised (.otherError "raise last_error unreachable") sleeps
  | fuel + 1, attempt, sleeps =>
      match f attempt with
      | .ok v => .ok v sleeps
      | .error (.httpStatusError status msg retryAfter) =>
          if 400 ≤ status ∧ status < 500 ∧ status ≠ 429 then
            .raised (.httpStatusError status msg retryAfter) sleeps
          else if attempt < max_retries then
            request_retry_iter max_retries base_delay max_delay f fuel (attempt + 1)
              (sleeps ++ [httpEffectiveDelay base_delay max_delay attempt retryAfter])
          else
            .raised (.httpStatusError status msg retryAfter) sleeps
      | .error (.connectError m) =>
          if attempt < max_retries then
            request_retry_iter max_retries base_delay max_delay f fuel (attempt + 1)
              (sleeps ++ [backoffDelay base_delay max_delay attempt])
          else
            .raised (.connectError m) sleeps
      | .error (.timeoutException m) =>
          if attempt < max_retries then
            request_retry_iter max_retries base_delay max_delay f fuel (attempt + 1)
              (sleeps ++ [backoffDelay base_delay max_delay attempt])
          else
            .raised (.timeoutException m) sleeps
      | .error e => .raised e sleeps

/-- The full `_request_with_retry` call: `max_retries + 1` iterations from
attempt 0. -/
def request_with_retry {α : Type} (max_retries : ℕ) (base_delay max_delay : ℚ)
    (f : ℕ → Except PyError α) : RunOutcome α :=
  request_retry_iter max_retries base_delay max_delay f (max_retries + 1) 0 []

/-- Python `x or y` on an `Optional[int]` argument: `None` and `0` are
falsy, so both select `y` (client.py line 40, `max_tokens or int(...)`). -/
def pyOrInt (x : Option ℤ) (y : ℤ) : ℤ :=
  match x with
  | none => y
  | some n => if n = 0 then y else n

/-- Python `x or y` on an `Optional[float]` argument: `None` and `0.0` are
falsy (client.py line 41, `temperature or float(...)`). -/
def pyOrRat (x : Option ℚ) (y : ℚ) : ℚ :=
  match x with
  | none => y
  | some q => if q = 0 then y else q

/-- Python `int(x)` on a non-negative float: truncation toward zero. -/
def pyIntOfRat (q : ℚ) : ℤ :=
  q.num.tdiv q.den

/-- The mutable fields of `RateLimiter` (client.py lines 24-46) together
with its immutable configuration: `rate`, `burst_size`, `tokens`,
`last_update`. Timestamps are readings of the monotonic clock, in
seconds. -/
structure RateLimiterState where
  rate : ℚ
  burst_size : ℤ
  tokens : ℚ
  last_update : ℚ
deriving DecidableEq

/-- `RateLimiter.__init__(requests_per_second, burst_size)` (client.py
lines 37-46): `burst_size or int(requests_per_second)` (Python truthiness,
so an explicit 0 also falls back), `tokens = float(burst_size)`,
`last_update = time.monotonic()` = `now`. -/
def rateLimiterInit (requests_per_second : ℚ) (burst_size : Option ℤ)
    (now : ℚ) : RateLimiterState :=
  let bs := pyOrInt burst_size (pyIntOfRat requests_per_second)
  { rate := requests_per_second, burst_size := bs, tokens := (bs : ℚ),
    last_update := now }

/-- Result of one `acquire()` call: the duration slept (0 when a token was
available) and the state on exit. -/
structure AcquireStep where
  wait : ℚ
  next : RateLimiterState
deriving DecidableEq

/-- `RateLimiter.acquire` (client.py lines 48-68) as a state transition,
with `now` the monotonic-clock reading taken at entry: set
`last_update = now`, refill `tokens = min(burst_size, tokens + elapsed * rate)`;
if `tokens < 1`, sleep `(1 - tokens) / rate` and then set `tokens = 0`
(the clock is not re-read after the sleep), else decrement `tokens` by 1
with no sleep. -/
def rateLimiterAcquire (s : RateLimiterState) (now : ℚ) : AcquireStep :=
  let elapsed := now - s.last_update
  let tokens := pymin (s.burst_size : ℚ) (s.tokens + elapsed * s.rate)
  if tokens < 1 then
    { wait := (1 - tokens) / s.rate,
      next := { s with tokens := 0, last_update := now } }
  else
    { wait := 0,
      next := { s with tokens := tokens - 1, last_update := now } }

/-- The waits produced by `n` consecutive `acquire()` calls all issued at
the same monotonic instant `now` (no time elapses between calls). -/
def acquireWaits (s : RateLimiterState) (now : ℚ) : ℕ → List ℚ
  | 0 => []
  | n + 1 =>
      let step := rateLimiterAcquire s now
      step.wait :: acquireWaits step.next now n

/-- The observable events of one `acquire()` call, in program order:
entering `async with self._lock`, reading `time.monotonic()`, the refill
read-modify-write, the `asyncio.sleep(wait_time)` when one happens, and
leaving the `async with` block (lock release). -/
inductive AcqEvent where
  | lockAcquire
  | readMonotonic
  | refill
  | sleep (wait : ℚ)
  | lockRelease
deriving DecidableEq

/-- Straight-line event trace of `RateLimiter.acquire` (client.py lines
48-68): the whole body, including the `await asyncio.sleep(wait_time)` in
the `tokens < 1` branch, executes inside the `async with self._lock`
block, so `lockRelease` is always the last event. -/
def acquireTrace (s : RateLimiterState) (now : ℚ) : List AcqEvent :=
  let elapsed := now - s.last_update
  let tokens := pymin (s.burst_size : ℚ) (s.tokens + elapsed * s.rate)
  if tokens < 1 then
    [.lockAcquire, .readMonotonic, .refill, .sleep ((1 - tokens) / s.rate),
     .lockRelease]
  else
    [.lockAcquire, .readMonotonic, .refill, .lockRelease]

/-- Whether the trace contains a sleep event. -/
def hasSleepEvent : List AcqEvent → Bool
  | [] => false
  | .sleep _ :: _ => true
  | _ :: rest => hasSleepEvent rest

/-- Whether some sleep event occurs strictly after a lock release — the
shape the spec asks for (compute the wait under the lock, release, then
sleep). -/
def releasedBeforeSleep : List AcqEvent → Bool
  | [] => false
  | .lockRelease :: rest => hasSleepEvent rest || releasedBeforeSleep rest
  | _ :: rest => releasedBeforeSleep rest

/-- The configuration environment read by the LLM factory and base-class
constructor: `LLM_PROVIDER`, `LLM_MODEL`, `LLM_MAX_TOKENS`,
`LLM_TEMPERATURE` and the per-provider credential variables.
`LLM_MAX_TOKENS` / `LLM_TEMPERATURE` are modelled as seen through
`int()` / `float()` applied to well-formed values (parsing of malformed
values raises and is outside the claims). `api_key_env` is
`os.getenv` restricted to credential variable names. -/
structure LLMEnv where
  llm_provider : Option String
  llm_model : Option String
  llm_max_tokens : Option ℤ
  llm_temperature : Option ℚ
  api_key_env : String → Option String

/-- The fields an adapter instance carries from `LLMClient.__init__`
(client.py lines 31-41). Every concrete provider class passes its
arguments through `super().__init__(model, api_key, max_tokens,
temperature)` unchanged; the vendor SDK handle and per-provider model-id
mapping they add afterwards are external collaborators. -/
structure LLMClientInst where
  model : String
  api_key : String
  max_tokens : ℤ
  temperature : ℚ
deriving DecidableEq

/-- `LLMClient.__init__` (client.py lines 31-41):
`self.max_tokens = max_tokens or int(os.getenv("LLM_MAX_TOKENS", "4096"))`
and
`self.temperature = temperature or float(os.getenv("LLM_TEMPERATURE", "0.3"))`
(0.3 is exactly 3/10 in the rational model). -/
def LLMClient_init (env : LLMEnv) (model api_key : String)
    (max_tokens : Option ℤ) (temperature : Option ℚ) : LLMClientInst :=
  { model := model, api_key := api_key,
    max_tokens := pyOrInt max_tokens (env.llm_max_tokens.getD 4096),
    temperature := pyOrRat temperature (env.llm_temperature.getD (3 / 10)) }

/-- The `_PROVIDERS` registry keys once `shared_utils.llm.providers` has
loaded (each provider module calls `register_provider` at load time, in
the order the modules appear in providers/__init__.py). -/
def PROVIDERS : List String := ["anthropic", "openai", "google", "grok"]

/-- `API_KEY_ENV_VARS` (client.py lines 86-91). -/
def API_KEY_ENV_VARS : List (String × String) :=
  [("anthropic", "ANTHROPIC_API_KEY"), ("openai", "OPENAI_API_KEY"),
   ("google", "GOOGLE_API_KEY"), ("grok", "XAI_API_KEY")]

/-- `DEFAULT_MODELS` (client.py lines 94-99). -/
def DEFAULT_MODELS : List (String × String) :=
  [("anthropic", "claude-sonnet-4-5-20250514"), ("openai", "gpt-4o"),
   ("google", "gemini-2.0-flash"), ("grok", "grok-3")]

/-- `API_KEY_ENV_VARS.get(provider, f"{provider.upper()}_API_KEY")`
(client.py line 156). -/
def apiKeyVar (provider : String) : String :=
  (API_KEY_ENV_VARS.lookup provider).getD (pyUpper provider ++ "_API_KEY")

/-- Result of `get_llm_client`: a constructed adapter, or one of its two
`ValueError` sites, carried structurally (unknown provider with the list
of registered providers; missing/placeholder credential with the
environment variable named in the message). -/
inductive FactoryResult where
  | ok (client : LLMClientInst)
  | unknownProvider (provider : String) (available : List String)
  | apiKeyNotSet (provider : String) (api_key_var : String)
deriving DecidableEq

/-- `get_llm_client` (client.py lines 107-174), step for step: default the
provider from `LLM_PROVIDER` (lowercased; an explicit argument is used
as-is), reject names missing from the registry; default the model from
`LLM_MODEL` then `DEFAULT_MODELS`; only when `api_key is None`, read the
provider's credential variable and raise when the value is missing, empty
(`not api_key`) or begins with the `"your_"` placeholder sentinel —
an explicitly passed `api_key` skips that check entirely; finally
construct the adapter through `LLMClient.__init__`. -/
def get_llm_client (env : LLMEnv) (provider model api_key : Option String)
    (max_tokens : Option ℤ) (temperature : Option ℚ) : FactoryResult :=
  let provider' :=
    match provider with
    | none => pyLower (env.llm_provider.getD "anthropic")
    | some p => p
  if PROVIDERS.contains provider' = false then
    .unknownProvider provider' PROVIDERS
  else
    let model' :=
      match model with
      | none => env.llm_model.getD ((DEFAULT_MODELS.lookup provider').getD "")
      | some m => m
    match api_key with
    | some k => .ok (LLMClient_init env model' k max_tokens temperature)
    | none =>
        let var := apiKeyVar provider'
        match env.api_key_env var with
        | none => .apiKeyNotSet provider' var
        | some k =>
            if k = "" || pyStartsWith k "your_" then .apiKeyNotSet provider' var
            else .ok (LLMClient_init env model' k max_tokens temperature)

/-- An environment with nothing set: every `os.getenv` returns `None`. -/
def emptyEnv : LLMEnv :=
  { llm_provider := none, llm_model := none, llm_max_tokens := none,
    llm_temperature := none, api_key_env := fun _ => none }

/-- An environment whose only setting is `OPENAI_API_KEY`, holding an
unfilled template placeholder value. -/
def placeholderEnv : LLMEnv :=
  { llm_provider := none, llm_model := none, llm_max_tokens := none,
    llm_temperature := none,
    api_key_env := fun v =>
      if v = "OPENAI_API_KEY" then some "your_openai_key" else none }

/-- Python `min` agrees with the order-theoretic `min` on ℚ. -/
theorem pymin_eq_min (a b : ℚ) : pymin a b = min a b := by
  rw [pymin, min_def]

/-- The per-attempt delay is `min(base_delay * 2^attempt, max_delay)`. -/
theorem backoffDelay_eq_min (base_delay max_delay : ℚ) (attempt : ℕ) :
    backoffDelay base_delay max_delay attempt =
      min (base_delay * 2 ^ attempt) max_delay := by
  rw [backoffDelay, pymin_eq_min]

/-- Peeling one index off an indexed `List.range` map. -/
theorem range_map_shift {β : Type} (d : ℕ → β) (k a : ℕ) :
    (List.range (k + 1)).map (fun j => d (a + j)) =
      d a :: (List.range k).map (fun j => d (a + 1 + j)) := by
  rw [List.range_succ_eq_map, List.map_cons, List.map_map]
  congr 1
  congr 1
  funext j
  show d (a + (j + 1)) = d (a + 1 + j)
  congr 1
  omega

/-- Trace of the `with_retry` loop when every attempt fails with a
retryable error: from position `attempt` it sleeps once per remaining
retry and finally re-raises the last attempt's own error. -/
theorem with_retry_iter_allfail {α : Type} (max_retries : ℕ)
    (base_delay max_delay : ℚ) (f : ℕ → Except PyError α) (e : ℕ → PyError)
    (hf : ∀ i, f i = .error (e i))
    (hr : ∀ i, is_retryable_error (e i) = true) :
    ∀ (fuel attempt : ℕ) (sleeps : List ℚ),
      attempt + fuel = max_retries + 1 → attempt ≤ max_retries →
      with_retry_iter max_retries base_delay max_delay none f fuel attempt sleeps =
        .raised (e max_retries)
          (sleeps ++ (List.range (max_retries - attempt)).map
            (fun j => backoffDelay base_delay max_delay (attempt + j))) := by
  intro fuel
  induction fuel with
  | zero => intro attempt sleeps h1 h2; omega
  | succ n ih =>
      intro attempt sleeps h1 h2
      rw [with_retry_iter, hf attempt]
      simp only [hr attempt]
      rcases Nat.lt_or_ge attempt max_retries with hlt | hge
      · rw [if_neg (by simp), if_neg (by omega)]
        rw [ih (attempt + 1) _ (by omega) (by omega)]
        congr 1
        have hk : max_retries - attempt = (max_retries - (attempt + 1)) + 1 := by
          omega
        rw [hk, range_map_shift]
        simp
      · have ha : attempt = max_retries := by omega
        subst ha
        rw [if_neg (by simp), if_pos (le_refl _)]
        simp

/-- Trace of the `_request_with_retry` loop when every attempt fails with
a status error whose code is outside the hard 4xx-except-429 override:
from position `attempt` it sleeps the effective (possibly header-supplied)
delay once per remaining retry and finally re-raises the last bare
error. -/
theorem request_retry_iter_allfail {α : Type} (max_retries : ℕ)
    (base_delay max_delay : ℚ) (f : ℕ → Except PyError α)
    (s : ℕ → ℕ) (m : ℕ → String) (ra : ℕ → Option (Option ℚ))
    (hf : ∀ i, f i = .error (.httpStatusError (s i) (m i) (ra i)))
    (hs : ∀ i, ¬(400 ≤ s i ∧ s i < 500 ∧ s i ≠ 429)) :
    ∀ (fuel attempt : ℕ) (sleeps : List ℚ),
      attempt + fuel = max_retries + 1 → attempt ≤ max_retries →
      request_retry_iter max_retries base_delay max_delay f fuel attempt sleeps =
        .raised (.httpStatusError (s max_retries) (m max_retries) (ra max_retries))
          (sleeps ++ (List.range (max_retries - attempt)).map
            (fun j => httpEffectiveDelay base_delay max_delay (attempt + j)
              (ra (attempt + j)))) := by
  intro fuel
  induction fuel with
  | zero => intro attempt sleeps h1 h2; omega
  | succ n ih =>
      intro attempt sleeps h1 h2
      rw [request_retry_iter, hf attempt]
      dsimp only
      rw [if_neg (hs attempt)]
      rcases Nat.lt_or_ge attempt max_retries with hlt | hge
      · rw [if_pos hlt]
        rw [ih (attempt + 1) _ (by omega) (by omega)]
        congr 1
        have hk : max_retries - attempt = (max_retries - (attempt + 1)) + 1 := by
          omega
        rw [hk,
          range_map_shift (fun x => httpEffectiveDelay base_delay max_delay x (ra x))
            (max_retries - (attempt + 1)) attempt]
        simp
      · have ha : attempt = max_retries := by omega
        subst ha
        rw [if_neg (by omega)]
        simp

/-- `with_retry` on an operation failing every attempt with retryable
errors: the full run sleeps the exponential schedule once per retry and
ends by re-raising the final attempt's bare error. -/
theorem with_retry_run_allfail {α : Type} (max_retries : ℕ)
    (base_delay max_delay : ℚ) (f : ℕ → Except PyError α) (e : ℕ → PyError)
    (hf : ∀ i, f i = .error (e i))
    (hr : ∀ i, is_retryable_error (e i) = true) :
    with_retry_run max_retries base_delay max_delay none f =
      .raised (e max_retries)
        ((List.range max_retries).map
          (fun i => backoffDelay base_delay max_delay i)) := by
  rw [with_retry_run,
    with_retry_iter_allfail max_retries base_delay max_delay f e hf hr
      (max_retries + 1) 0 [] (by omega) (by omega)]
  simp

/-- `_request_with_retry` on a call failing every attempt with a
non-hard-4xx status error: sleeps the effective delays and re-raises the
final bare error. -/
theorem request_with_retry_allfail {α : Type} (max_retries : ℕ)
    (base_delay max_delay : ℚ) (f : ℕ → Except PyError α)
    (s : ℕ → ℕ) (m : ℕ → String) (ra : ℕ → Option (Option ℚ))
    (hf : ∀ i, f i = .error (.httpStatusError (s i) (m i) (ra i)))
    (hs : ∀ i, ¬(400 ≤ s i ∧ s i < 500 ∧ s i ≠ 429)) :
    request_with_retry max_retries base_delay max_delay f =
      .raised
        (.httpStatusError (s max_retries) (m max_retries) (ra max_retries))
        ((List.range max_retries).map
          (fun i => httpEffectiveDelay base_delay max_delay i (ra i))) := by
  rw [request_with_retry,
    request_retry_iter_allfail max_retries base_delay max_delay f s m ra hf hs
      (max_retries + 1) 0 [] (by omega) (by omega)]
  simp

/-- Claim C1 (counterexample): with `max_retries = 1` and an operation that
always fails with a retryable error, `with_retry` sleeps once and then
re-raises the bare original error — the outcome is not a
`MaxRetriesExceeded` signal; likewise `_request_with_retry` with a 429
re-raises the bare status error after exhausting its retries. -/
theorem c1_bare_raise_counterexample :
    with_retry_run 1 1 30 none
        (fun _ => (Except.error (.retryableError "boom") : Except PyError Unit)) =
      .raised (.retryableError "boom") [1] ∧
    (with_retry_run 1 1 30 none
        (fun _ => (Except.error (.retryableError "boom") : Except PyError Unit))).isMaxRetriesSignal
      = false ∧
    request_with_retry 2 1 30
        (fun _ => (Except.error (.httpStatusError 429 "Too Many Requests" none) :
          Except PyError Unit)) =
      .raised (.httpStatusError 429 "Too Many Requests" none) [1, 2] ∧
    (request_with_retry 2 1 30
        (fun _ => (Except.error (.httpStatusError 429 "Too Many Requests" none) :
          Except PyError Unit))).isMaxRetriesSignal = false := by
  exact ⟨by decide, by decide, by decide, by decide⟩

/-- Claim C1 (amended): after `max_retries` attempts are exhausted the
retry wrappers (`with_retry` / `with_retry_sync`, and
`_request_with_retry`) re-raise the bare original error of the final
attempt; the `MaxRetriesExceeded` signal defined in retry/errors.py is
never raised. -/
theorem c1_exhaustion_propagates_bare_error :
    (∀ (α : Type) (max_retries : ℕ) (base_delay max_delay : ℚ)
        (f : ℕ → Except PyError α) (e : ℕ → PyError),
        (∀ i, f i = .error (e i)) → (∀ i, is_retryable_error (e i) = true) →
        with_retry_run max_retries base_delay max_delay none f =
          .raised (e max_retries)
            ((List.range max_retries).map
              (fun i => backoffDelay base_delay max_delay i)) ∧
        (with_retry_run max_retries base_delay max_delay none f).isMaxRetriesSignal
          = false) ∧
    (∀ (max_retries : ℕ) (base_delay max_delay : ℚ) (m : ℕ → String),
        request_with_retry (α := Unit) max_retries base_delay max_delay
            (fun i => .error (.httpStatusError 429 (m i) none)) =
          .raised (.httpStatusError 429 (m max_retries) none)
            ((List.range max_retries).map
              (fun i => backoffDelay base_delay max_delay i))) := by
  constructor
  · intro α mr base maxd f e hf hr
    have h := with_retry_run_allfail mr base maxd f e hf hr
    exact ⟨h, by rw [h]; rfl⟩
  · intro mr base maxd m
    exact request_with_retry_allfail mr base maxd _ (fun _ => 429) m
      (fun _ => none) (fun _ => rfl) (fun _ => by simp)

/-- Claim C1 (witness): the amended statement applied at `max_retries = 2`,
`base_delay = 1`, `max_delay = 30` and an always-failing retryable
operation. -/
theorem c1_exhaustion_witness :
    with_retry_run 2 1 30 none
        (fun _ => (Except.error (.retryableError "boom") : Except PyError Unit)) =
      .raised (.retryableError "boom") [1, 2] := by
  have h := (c1_exhaustion_propagates_bare_error.1 Unit 2 1 30
    (fun _ => Except.error (.retryableError "boom"))
    (fun _ => .retryableError "boom") (fun _ => rfl) (fun _ => rfl)).1
  exact h.trans (by decide)

/-- Claim C2: `RateLimiter.acquire` first refills
`tokens = min(capacity, tokens + elapsed * rate)` from the monotonic
elapsed time, then either waits `(1 - tokens) / rate` and zeroes the
bucket (when `tokens < 1`) or decrements by one without waiting; in
particular, starting full with `rate = 5`, `capacity = 5` and no elapsed
time, five acquisitions wait 0 and the sixth waits 1/5 s = 0.2 s. -/
theorem c2_token_bucket_acquire (s : RateLimiterState) (now : ℚ)
    (hrate : 0 < s.rate) :
    (min (s.burst_size : ℚ) (s.tokens + (now - s.last_update) * s.rate) < 1 →
      rateLimiterAcquire s now =
        { wait := (1 - min (s.burst_size : ℚ)
              (s.tokens + (now - s.last_update) * s.rate)) / s.rate,
          next := { s with tokens := 0, last_update := now } }) ∧
    (1 ≤ min (s.burst_size : ℚ) (s.tokens + (now - s.last_update) * s.rate) →
      rateLimiterAcquire s now =
        { wait := 0,
          next := { s with
            tokens := min (s.burst_size : ℚ)
              (s.tokens + (now - s.last_update) * s.rate) - 1,
            last_update := now } }) ∧
    acquireWaits (rateLimiterInit 5 none 0) 0 6 = [0, 0, 0, 0, 0, 1/5] := by
  refine ⟨?_, ?_, by decide⟩
  · intro h
    rw [rateLimiterAcquire]
    simp only [pymin_eq_min]
    rw [if_pos h]
  · intro h
    rw [rateLimiterAcquire]
    simp only [pymin_eq_min]
    rw [if_neg (not_lt.mpr h)]

/-- Claim C2 (witness): the acquire transition applied to the drained
bucket `rate = 5`, `capacity = 5`, `tokens = 0` at zero elapsed time,
together with the six-acquisition scenario. -/
theorem c2_token_bucket_witness :
    (0 : ℚ) < 5 ∧
    min (((5 : ℤ) : ℚ)) ((0 : ℚ) + ((0 : ℚ) - 0) * 5) < 1 ∧
    rateLimiterAcquire ⟨5, 5, 0, 0⟩ 0 = ⟨1/5, ⟨5, 5, 0, 0⟩⟩ ∧
    acquireWaits (rateLimiterInit 5 none 0) 0 6 = [0, 0, 0, 0, 0, 1/5] := by
  have h := c2_token_bucket_acquire ⟨5, 5, 0, 0⟩ 0 (by decide)
  exact ⟨by decide, by decide, (h.1 (by decide)).trans (by decide), h.2.2⟩

/-- Claim C3: on every retryable failure at 0-indexed attempt `i`, the
retry wrappers sleep `min(base_delay * 2^i, max_delay)`; with
`base_delay = 1` and `max_delay = 30` the schedule for attempts 0..5 is
1, 2, 4, 8, 16, 30. -/
theorem c3_exponential_backoff_schedule :
    (∀ (α : Type) (max_retries : ℕ) (base_delay max_delay : ℚ)
        (f : ℕ → Except PyError α) (e : ℕ → PyError),
        (∀ i, f i = .error (e i)) → (∀ i, is_retryable_error (e i) = true) →
        (with_retry_run max_retries base_delay max_delay none f).sleeps =
          (List.range max_retries).map
            (fun i => min (base_delay * 2 ^ i) max_delay)) ∧
    (List.range 6).map (fun i => min ((1 : ℚ) * 2 ^ i) 30) =
      [1, 2, 4, 8, 16, 30] := by
  constructor
  · intro α mr base maxd f e hf hr
    rw [with_retry_run_allfail mr base maxd f e hf hr]
    rw [RunOutcome.sleeps]
    congr 1
  · decide

/-- Claim C3 (witness): the schedule instantiated at `max_retries = 6`,
`base_delay = 1`, `max_delay = 30` on an always-failing retryable
operation. -/
theorem c3_backoff_witness :
    (with_retry_run 6 1 30 none
        (fun _ => (Except.error (.retryableError "boom") : Except PyError Unit))).sleeps =
      [1, 2, 4, 8, 16, 30] := by
  have h := c3_exponential_backoff_schedule.1 Unit 6 1 30
    (fun _ => Except.error (.retryableError "boom"))
    (fun _ => .retryableError "boom") (fun _ => rfl) (fun _ => rfl)
  exact h.trans (by decide)

/-- Claim C4: in `_request_with_retry`, a status error in the 4xx range
other than 429 is re-raised immediately with no sleep and no further
attempt, while a 429 is retried up to `max_retries` times (sleeping its
effective delay each time) before the final bare error propagates. -/
theorem c4_hard_4xx_override :
    (∀ (max_retries : ℕ) (base_delay max_delay : ℚ) (status : ℕ)
        (msg : String) (ra : Option (Option ℚ)),
        400 ≤ status → status < 500 → status ≠ 429 →
        request_with_retry (α := Unit) max_retries base_delay max_delay
            (fun _ => .error (.httpStatusError status msg ra)) =
          .raised (.httpStatusError status msg ra) []) ∧
    (∀ (max_retries : ℕ) (base_delay max_delay : ℚ) (m : ℕ → String)
        (ra : ℕ → Option (Option ℚ)),
        request_with_retry (α := Unit) max_retries base_delay max_delay
            (fun i => .error (.httpStatusError 429 (m i) (ra i))) =
          .raised (.httpStatusError 429 (m max_retries) (ra max_retries))
            ((List.range max_retries).map
              (fun i => httpEffectiveDelay base_delay max_delay i (ra i)))) := by
  constructor
  · intro mr base maxd status msg ra h1 h2 h3
    rw [request_with_retry, request_retry_iter]
    dsimp only
    rw [if_pos ⟨h1, h2, h3⟩]
  · intro mr base maxd m ra
    exact request_with_retry_allfail mr base maxd _ (fun _ => 429) m ra
      (fun _ => rfl) (fun _ => by simp)

/-- Claim C4 (witness): a 403 is re-raised at once even with retries
remaining, and a 429 is retried twice under `max_retries = 2` before the
bare error propagates. -/
theorem c4_hard_4xx_witness :
    request_with_retry (α := Unit) 3 1 30
        (fun _ => .error (.httpStatusError 403 "Forbidden" none)) =
      .raised (.httpStatusError 403 "Forbidden" none) [] ∧
    request_with_retry (α := Unit) 2 1 30
        (fun _ => .error (.httpStatusError 429 "rate limited" none)) =
      .raised (.httpStatusError 429 "rate limited" none) [1, 2] := by
  constructor
  · exact c4_hard_4xx_override.1 3 1 30 403 "Forbidden" none (by omega)
      (by omega) (by omega)
  · have h := c4_hard_4xx_override.2 2 1 30 (fun _ => "rate limited")
      (fun _ => none)
    exact h.trans (by decide)

/-- Claim C5: for a transport-status error, `is_retryable_error` returns
true on each status in {429, 500, 502, 503, 504} and false on each status
in {400, 401, 403, 404}, whatever the message and headers. -/
theorem c5_status_code_classification (msg : String) (ra : Option (Option ℚ)) :
    is_retryable_error (.httpStatusError 429 msg ra) = true ∧
    is_retryable_error (.httpStatusError 500 msg ra) = true ∧
    is_retryable_error (.httpStatusError 502 msg ra) = true ∧
    is_retryable_error (.httpStatusError 503 msg ra) = true ∧
    is_retryable_error (.httpStatusError 504 msg ra) = true ∧
    is_retryable_error (.httpStatusError 400 msg ra) = false ∧
    is_retryable_error (.httpStatusError 401 msg ra) = false ∧
    is_retryable_error (.httpStatusError 403 msg ra) = false ∧
    is_retryable_error (.httpStatusError 404 msg ra) = false :=
  ⟨rfl, rfl, rfl, rfl, rfl, rfl, rfl, rfl, rfl⟩

/-- Claim C5 (witness): the classification evaluated at a concrete
message and empty header. -/
theorem c5_classification_witness :
    is_retryable_error (.httpStatusError 429 "err" none) = true ∧
    is_retryable_error (.httpStatusError 404 "err" none) = false :=
  ⟨(c5_status_code_classification "err" none).1,
   (c5_status_code_classification "err" none).2.2.2.2.2.2.2.2⟩

/-- Claim C6: a retried status failure whose `Retry-After` header parses
as a float sleeps exactly that value for that attempt (no clamping
against `max_delay`); a missing or unparsable header falls back to
`min(base_delay * 2^attempt, max_delay)`; and the loop applies the
per-attempt effective delay to each retried 429 failure in turn. -/
theorem c6_retry_after_override :
    (∀ (base_delay max_delay : ℚ) (attempt : ℕ) (v : ℚ),
        httpEffectiveDelay base_delay max_delay attempt (some (some v)) = v) ∧
    (∀ (base_delay max_delay : ℚ) (attempt : ℕ),
        httpEffectiveDelay base_delay max_delay attempt (some none) =
          min (base_delay * 2 ^ attempt) max_delay ∧
        httpEffectiveDelay base_delay max_delay attempt none =
          min (base_delay * 2 ^ attempt) max_delay) ∧
    (∀ (max_retries : ℕ) (base_delay max_delay : ℚ) (m : ℕ → String)
        (ra : ℕ → Option (Option ℚ)),
        request_with_retry (α := Unit) max_retries base_delay max_delay
            (fun i => .error (.httpStatusError 429 (m i) (ra i))) =
          .raised (.httpStatusError 429 (m max_retries) (ra max_retries))
            ((List.range max_retries).map
              (fun i => httpEffectiveDelay base_delay max_delay i (ra i)))) := by
  refine ⟨fun base maxd attempt v => rfl, fun base maxd attempt => ?_, ?_⟩
  · exact ⟨backoffDelay_eq_min base maxd attempt,
      backoffDelay_eq_min base maxd attempt⟩
  · intro mr base maxd m ra
    exact request_with_retry_allfail mr base maxd _ (fun _ => 429) m ra
      (fun _ => rfl) (fun _ => by simp)

/-- Claim C6 (witness): a header value of 1000 s is used verbatim even
though `max_delay = 30`, and a one-retry 429 run with that header sleeps
exactly 1000 s. -/
theorem c6_retry_after_witness :
    httpEffectiveDelay 1 30 0 (some (some 1000)) = 1000 ∧
    httpEffectiveDelay 1 30 3 (some none) = 8 ∧
    httpEffectiveDelay 1 30 3 none = 8 ∧
    request_with_retry (α := Unit) 1 1 30
        (fun _ => .error (.httpStatusError 429 "slow down" (some (some 1000)))) =
      .raised (.httpStatusError 429 "slow down" (some (some 1000))) [1000] := by
  refine ⟨c6_retry_after_override.1 1 30 0 1000, ?_, ?_, ?_⟩
  · exact ((c6_retry_after_override.2.1 1 30 3).1).trans (by decide)
  · exact ((c6_retry_after_override.2.1 1 30 3).2).trans (by decide)
  · have h := c6_retry_after_override.2.2 1 1 30 (fun _ => "slow down")
      (fun _ => some (some 1000))
    exact h.trans (by decide)

/-- Claim C7 (counterexample): a transport-status error with status 418 —
in neither status set — whose message contains "rate limit" is classified
as not retryable: the status branch returns immediately, so the
message-text rule is never reached for status errors. -/
theorem c7_message_rule_counterexample :
    messageIndicatesRetry "Rate limit exceeded" = true ∧
    RETRYABLE_STATUS_CODES.contains 418 = false ∧
    NON_RETRYABLE_STATUS_CODES.contains 418 = false ∧
    is_retryable_error (.httpStatusError 418 "Rate limit exceeded" none) = false := by
  exact ⟨by decide, by decide, by decide, by decide⟩

/-- Claim C7 (amended): for a transport-status error the status rule alone
decides — `is_retryable_error` returns exactly the membership of the
status in the retryable set, regardless of message text; the
message-text rule fires only for errors that are not typed
status/connection/timeout errors. -/
theorem c7_status_rule_decides :
    (∀ (status : ℕ) (msg : String) (ra : Option (Option ℚ)),
        is_retryable_error (.httpStatusError status msg ra) =
          RETRYABLE_STATUS_CODES.contains status) ∧
    (∀ msg : String, messageIndicatesRetry msg = true →
        is_retryable_error (.otherError msg) = true) := by
  exact ⟨fun status msg ra => rfl, fun msg h => h⟩

/-- Claim C7 (witness): the amended statement applied to status 418 with a
rate-limit message, and to an untyped error with the same message. -/
theorem c7_message_rule_witness :
    is_retryable_error (.httpStatusError 418 "Rate limit exceeded" none) =
      RETRYABLE_STATUS_CODES.contains 418 ∧
    messageIndicatesRetry "Rate limit exceeded" = true ∧
    is_retryable_error (.otherError "Rate limit exceeded") = true :=
  ⟨c7_status_rule_decides.1 418 "Rate limit exceeded" none, by decide,
   c7_status_rule_decides.2 "Rate limit exceeded" (by decide)⟩

/-- Claim C8 (counterexample): explicitly supplying `max_tokens = 0` and
`temperature = 0.0` does not carry those values into the adapter — the
`or`-based resolution treats them as falsy and the instance comes out
with the hard-coded defaults 4096 and 0.3 instead. -/
theorem c8_zero_args_counterexample :
    get_llm_client emptyEnv (some "openai") (some "gpt-4o") (some "sk-test")
        (some 0) (some 0) =
      .ok ⟨"gpt-4o", "sk-test", 4096, 3/10⟩ ∧
    (4096 : ℤ) ≠ 0 ∧ ((3 : ℚ)/10) ≠ 0 := by
  exact ⟨by decide, by decide, by decide⟩

/-- Claim C8 (amended): an explicitly supplied non-zero `max_tokens` /
`temperature` is carried exactly into the constructed adapter; an
explicit 0 / 0.0 is falsy under the source's `or`-based resolution and
falls back to the configuration default (`LLM_MAX_TOKENS` /
`LLM_TEMPERATURE`) and then the hard-coded defaults 4096 / 0.3, exactly
as an absent argument does. -/
theorem c8_truthiness_resolution :
    (∀ (env : LLMEnv) (p m k : String) (mt : ℤ) (tp : ℚ),
        PROVIDERS.contains p = true → mt ≠ 0 → tp ≠ 0 →
        get_llm_client env (some p) (some m) (some k) (some mt) (some tp) =
          .ok ⟨m, k, mt, tp⟩) ∧
    (∀ (env : LLMEnv) (p m k : String),
        PROVIDERS.contains p = true →
        get_llm_client env (some p) (some m) (some k) (some 0) (some 0) =
          .ok ⟨m, k, env.llm_max_tokens.getD 4096,
               env.llm_temperature.getD (3/10)⟩) ∧
    (∀ (env : LLMEnv) (p m k : String),
        PROVIDERS.contains p = true →
        get_llm_client env (some p) (some m) (some k) none none =
          .ok ⟨m, k, env.llm_max_tokens.getD 4096,
               env.llm_temperature.getD (3/10)⟩) := by
  refine ⟨?_, ?_, ?_⟩
  · intro env p m k mt tp hp hmt htp
    have hp' : p ∈ PROVIDERS := by simpa using hp
    simp [get_llm_client, LLMClient_init, pyOrInt, pyOrRat, hp', hmt, htp]
  · intro env p m k hp
    have hp' : p ∈ PROVIDERS := by simpa using hp
    simp [get_llm_client, LLMClient_init, pyOrInt, pyOrRat, hp']
  · intro env p m k hp
    have hp' : p ∈ PROVIDERS := by simpa using hp
    simp [get_llm_client, LLMClient_init, pyOrInt, pyOrRat, hp']

/-- Claim C8 (witness): the amended resolution applied with the empty
environment — explicit 100 / 0.7 survive, explicit 0 / 0.0 become
4096 / 0.3. -/
theorem c8_truthiness_witness :
    PROVIDERS.contains "openai" = true ∧
    get_llm_client emptyEnv (some "openai") (some "gpt-4o") (some "sk-test")
        (some 100) (some (7/10)) =
      .ok ⟨"gpt-4o", "sk-test", 100, 7/10⟩ ∧
    get_llm_client emptyEnv (some "openai") (some "gpt-4o") (some "sk-test")
        (some 0) (some 0) =
      .ok ⟨"gpt-4o", "sk-test", 4096, 3/10⟩ := by
  refine ⟨by decide, ?_, ?_⟩
  · exact c8_truthiness_resolution.1 emptyEnv "openai" "gpt-4o" "sk-test"
      100 (7/10) (by decide) (by decide) (by decide)
  · have h := c8_truthiness_resolution.2.1 emptyEnv "openai" "gpt-4o" "sk-test"
      (by decide)
    exact h.trans (by decide)

/-- Claim C9 (counterexample): a placeholder credential passed as an
explicit argument is not rejected — the factory constructs the adapter
with the `"your_"`-prefixed key, because the placeholder check sits
inside the `api_key is None` branch. -/
theorem c9_explicit_placeholder_counterexample :
    pyStartsWith "your_api_key_here" "your_" = true ∧
    get_llm_client emptyEnv (some "openai") (some "gpt-4o")
        (some "your_api_key_here") none none =
      .ok ⟨"gpt-4o", "your_api_key_here", 4096, 3/10⟩ := by
  exact ⟨by decide, by decide⟩

/-- Claim C9 (amended): the missing/placeholder credential check applies
only when the credential is resolved from the environment: an explicitly
supplied `api_key` is used as-is (even a placeholder) and the adapter is
constructed, while an environment credential that is absent, empty, or
`"your_"`-prefixed raises the configuration error before any adapter is
constructed. -/
theorem c9_env_only_credential_check :
    (∀ (env : LLMEnv) (p m k : String) (mt : Option ℤ) (tp : Option ℚ),
        PROVIDERS.contains p = true →
        get_llm_client env (some p) (some m) (some k) mt tp =
          .ok (LLMClient_init env m k mt tp)) ∧
    (∀ (env : LLMEnv) (p m : String) (mt : Option ℤ) (tp : Option ℚ),
        PROVIDERS.contains p = true →
        env.api_key_env (apiKeyVar p) = none →
        get_llm_client env (some p) (some m) none mt tp =
          .apiKeyNotSet p (apiKeyVar p)) ∧
    (∀ (env : LLMEnv) (p m k : String) (mt : Option ℤ) (tp : Option ℚ),
        PROVIDERS.contains p = true →
        env.api_key_env (apiKeyVar p) = some k →
        (k = "" ∨ pyStartsWith k "your_" = true) →
        get_llm_client env (some p) (some m) none mt tp =
          .apiKeyNotSet p (apiKeyVar p)) := by
  refine ⟨?_, ?_, ?_⟩
  · intro env p m k mt tp hp
    have hp' : p ∈ PROVIDERS := by simpa using hp
    simp [get_llm_client, hp']
  · intro env p m mt tp hp hk
    have hp' : p ∈ PROVIDERS := by simpa using hp
    simp [apiKeyVar] at hk
    simp [get_llm_client, apiKeyVar, hp', hk]
  · intro env p m k mt tp hp hk hor
    have hp' : p ∈ PROVIDERS := by simpa using hp
    simp [apiKeyVar] at hk
    rcases hor with he | hs
    · simp [get_llm_client, apiKeyVar, hp', hk, he]
    · simp [get_llm_client, apiKeyVar, hp', hk, hs]

/-- Claim C9 (witness): the amended statement applied to the environment
whose `OPENAI_API_KEY` holds a placeholder (rejected) and to an explicit
placeholder argument (accepted). -/
theorem c9_credential_check_witness :
    get_llm_client placeholderEnv (some "openai") (some "gpt-4o") none none none =
      .apiKeyNotSet "openai" "OPENAI_API_KEY" ∧
    get_llm_client emptyEnv (some "openai") (some "gpt-4o") none none none =
      .apiKeyNotSet "openai" "OPENAI_API_KEY" ∧
    get_llm_client emptyEnv (some "openai") (some "gpt-4o")
        (some "your_api_key_here") none none =
      .ok ⟨"gpt-4o", "your_api_key_here", 4096, 3/10⟩ := by
  refine ⟨?_, ?_, ?_⟩
  · have h := c9_env_only_credential_check.2.2 placeholderEnv "openai" "gpt-4o"
      "your_openai_key" none none (by decide) (by decide) (Or.inr (by decide))
    exact h.trans (by decide)
  · have h := c9_env_only_credential_check.2.1 emptyEnv "openai" "gpt-4o"
      none none (by decide) rfl
    exact h.trans (by decide)
  · have h := c9_env_only_credential_check.1 emptyEnv "openai" "gpt-4o"
      "your_api_key_here" none none (by decide)
    exact h.trans (by decide)

/-- Claim C10 (counterexample): at a drained bucket the acquire trace is
lock-acquire, clock read, refill, sleep, lock-release — the sleep happens
strictly before the lock release, i.e. while the lock is held, not after
releasing it. -/
theorem c10_sleep_under_lock_counterexample :
    acquireTrace ⟨5, 5, 0, 0⟩ 0 =
      [.lockAcquire, .readMonotonic, .refill, .sleep (1/5), .lockRelease] ∧
    hasSleepEvent (acquireTrace ⟨5, 5, 0, 0⟩ 0) = true ∧
    releasedBeforeSleep (acquireTrace ⟨5, 5, 0, 0⟩ 0) = false := by
  exact ⟨by decide, by decide, by decide⟩

/-- Claim C10 (amended): whenever the refilled token count is below 1,
`RateLimiter.acquire` computes the wait and performs the
`asyncio.sleep` inside the `async with self._lock` block; the lock
release is the last event, after the sleep, never before it. -/
theorem c10_sleep_inside_lock (s : RateLimiterState) (now : ℚ)
    (hw : min (s.burst_size : ℚ) (s.tokens + (now - s.last_update) * s.rate) < 1) :
    acquireTrace s now =
      [.lockAcquire, .readMonotonic, .refill,
       .sleep ((1 - min (s.burst_size : ℚ)
         (s.tokens + (now - s.last_update) * s.rate)) / s.rate),
       .lockRelease] ∧
    hasSleepEvent (acquireTrace s now) = true ∧
    releasedBeforeSleep (acquireTrace s now) = false := by
  have ht : acquireTrace s now =
      [.lockAcquire, .readMonotonic, .refill,
       .sleep ((1 - min (s.burst_size : ℚ)
         (s.tokens + (now - s.last_update) * s.rate)) / s.rate),
       .lockRelease] := by
    rw [acquireTrace]
    simp only [pymin_eq_min]
    rw [if_pos hw]
  exact ⟨ht, by rw [ht]; rfl, by rw [ht]; rfl⟩

/-- Claim C10 (witness): the amended statement applied to the drained
bucket with `rate = 5`. -/
theorem c10_sleep_inside_lock_witness :
    min (((5 : ℤ) : ℚ)) ((0 : ℚ) + ((0 : ℚ) - 0) * 5) < 1 ∧
    acquireTrace ⟨5, 5, 0, 0⟩ 0 =
      [.lockAcquire, .readMonotonic, .refill, .sleep (1/5), .lockRelease] ∧
    releasedBeforeSleep (acquireTrace ⟨5, 5, 0, 0⟩ 0) = false := by
  have h := c10_sleep_inside_lock ⟨5, 5, 0, 0⟩ 0 (by decide)
  exact ⟨by decide, h.1.trans (by decide), h.2.2⟩
